import Mathlib

/-!
Verification of the client-side result renderer of the quantum-stock-market
dashboard (`static/app.js`), the `displayResults` / `clearResults` pipeline.

The JavaScript values flowing through the renderer are modelled by `JVal`
(JSON values plus `undefined`), JS numbers by `JNum` (a rational or `NaN`;
JSON payloads carry decimal literals, which are exact rationals — the model
idealizes IEEE doubles by exact rationals, which is faithful for the
decimal-valued payloads the API produces and for every concrete input used
below).  All number formatting is done with integer arithmetic on the
numerator/denominator so that every definition evaluates inside the kernel.
-/

namespace StockApp

/-- A JavaScript number: either `NaN` (as produced by `parseFloat` on
unparsable input) or a finite value, idealized as an exact rational. -/
inductive JNum where
  | nan
  | num (q : ℚ)
deriving DecidableEq, Repr

/-- A JavaScript value as seen by the renderer: JSON values plus
`undefined` (the result of reading an absent property). -/
inductive JVal where
  | jundefined
  | jnull
  | jbool (b : Bool)
  | jnum (n : JNum)
  | jstr (s : String)
  | jarr (xs : List JVal)
  | jobj (fields : List (String × JVal))
deriving Repr

/-- JS truthiness, as used by `if (data.detail)`: `undefined`, `null`,
`false`, `0`, `NaN` and `""` are falsy, everything else truthy. -/
def truthy : JVal → Bool
  | .jundefined => false
  | .jnull => false
  | .jbool b => b
  | .jnum .nan => false
  | .jnum (.num q) => decide (q ≠ 0)
  | .jstr s => decide (s ≠ "")
  | .jarr _ => true
  | .jobj _ => true

/-- True unless the value is `null` or `undefined`.  Property access on a
nullish receiver is the one way the renderer can throw a `TypeError`. -/
def nonNullish : JVal → Bool
  | .jundefined => false
  | .jnull => false
  | _ => true

/-- Whether the value is exactly `undefined` (the `!== undefined` tests). -/
def isUndefined : JVal → Bool
  | .jundefined => true
  | _ => false

/-- The nullish-coalescing operator `a ?? b`: `b` when `a` is `null` or
`undefined`, otherwise `a`.  Note that `NaN ?? b` is `NaN`: `NaN` is a
number, not a nullish value. -/
def jsNullish (a b : JVal) : JVal :=
  match a with
  | .jundefined => b
  | .jnull => b
  | v => v

/-- Property read `v[k]` on a receiver that is known non-nullish: the
field's value on an object that has the key, `undefined` otherwise
(primitives and arrays own none of the record keys the renderer reads).
Callers that may receive a nullish value model the thrown `TypeError`
explicitly (see `renderItem` and `displayCore`). -/
def getFieldD : JVal → String → JVal
  | .jobj fs, k => ((fs.lookup k).getD .jundefined)
  | _, _ => .jundefined

/-- Whether the payload is a JS array (`Array.isArray`). -/
def isArr : JVal → Bool
  | .jarr _ => true
  | _ => false

/-- The k last decimal digits of `m` (most significant first), as
characters, padded with leading zeros to exactly `k` characters. -/
def natDigitsFixed : Nat → Nat → List Char
  | 0, _ => []
  | k+1, m => natDigitsFixed k (m / 10) ++ [Nat.digitChar (m % 10)]

/-- Round-half-up of `a / b` computed in integer arithmetic
(`(2a + b) / (2b)`); this is the tie-breaking `Number.prototype.toFixed`
uses on the magnitude of its argument. -/
def roundHalfUp (a b : Nat) : Nat :=
  (2 * a + b) / (2 * b)

/-- `|q|` scaled by `10^p` and rounded half-up to an integer. -/
def scaledAbs (q : ℚ) (p : Nat) : Nat :=
  roundHalfUp (q.num.natAbs * 10 ^ p) q.den

/-- Fixed-point decimal rendering of a rational with exactly `n` digits
after the point (no point when `n = 0`), mirroring `toFixed(n)` for the
finite values in range. -/
def formatFixed (n : Nat) (q : ℚ) : String :=
  let scaled := scaledAbs q n
  let ip := scaled / 10 ^ n
  let fp := scaled % 10 ^ n
  (if Rat.blt q 0 then "-" else "") ++ Nat.repr ip ++
    (if n = 0 then "" else "." ++ String.mk (natDigitsFixed n fp))

/-- JS `Number.prototype.toFixed(n)`: `"NaN"` on `NaN`, otherwise the
fixed-point rendering (payload numbers are far below the `1e21` threshold
where JS would switch to exponential notation). -/
def jsToFixed (n : Nat) : JNum → String
  | .nan => "NaN"
  | .num q => formatFixed n q

/-- Default `ToString` for a JS number: `"NaN"` on `NaN`; for a finite
value the shortest exact decimal expansion (payload values born from JSON
decimal literals always have a power-of-ten denominator, so the search
below finds the exact number of fraction digits). -/
def numToString : JNum → String
  | .nan => "NaN"
  | .num q =>
    match (List.range 40).find? (fun k => q.den ∣ 10 ^ k) with
    | some k => formatFixed k q
    | none => formatFixed 40 q

mutual

/-- JS `ToString` conversion as used by template-literal interpolation and
by `parseFloat`'s argument coercion. -/
def jsToString : JVal → String
  | .jundefined => "undefined"
  | .jnull => "null"
  | .jbool b => cond b "true" "false"
  | .jnum n => numToString n
  | .jstr s => s
  | .jarr xs => String.intercalate "," (jsToStringArr xs)
  | .jobj _ => "[object Object]"

/-- Element conversion of `Array.prototype.toString` (a joined list where
`null` and `undefined` elements render as the empty string). -/
def jsToStringArr : List JVal → List String
  | [] => []
  | x :: rest =>
    (match x with
     | .jundefined => ""
     | .jnull => ""
     | y => jsToString y) :: jsToStringArr rest

end

/-- Digit characters folded into the natural number they spell. -/
def digitsToNat (l : List Char) : Nat :=
  l.foldl (fun a c => a * 10 + (c.toNat - 48)) 0

/-- Characters skipped by `parseFloat` before the number. -/
def isJsWs (c : Char) : Bool :=
  c = ' ' || c = '\t' || c = '\n' || c = '\r'

/-- JS `parseFloat` on a string: skip leading whitespace, read an optional
sign, an integer part, an optional fraction part and an optional exponent,
ignore any trailing garbage, and produce `NaN` when no digits were read.
(The `"Infinity"` spelling is not modelled: JSON payloads cannot contain
infinities and the renderer never receives that string.) -/
def parseFloatStr (s : String) : JNum :=
  let cs := s.toList.dropWhile isJsWs
  let sign : Bool := cs.head? = some '-'
  let cs := if cs.head? = some '-' || cs.head? = some '+' then cs.tail else cs
  let intDigits := cs.takeWhile Char.isDigit
  let cs := cs.dropWhile Char.isDigit
  let fracDigits :=
    match cs with
    | '.' :: rest => rest.takeWhile Char.isDigit
    | _ => []
  let cs2 :=
    match cs with
    | '.' :: rest => rest.dropWhile Char.isDigit
    | _ => cs
  if intDigits.isEmpty && fracDigits.isEmpty then .nan
  else
    let mantissa : Nat := digitsToNat intDigits * 10 ^ fracDigits.length + digitsToNat fracDigits
    let snum : Int := if sign then -(mantissa : Int) else (mantissa : Int)
    let expDigits :=
      match cs2 with
      | 'e' :: '-' :: ds => ds.takeWhile Char.isDigit
      | 'e' :: '+' :: ds => ds.takeWhile Char.isDigit
      | 'e' :: ds => ds.takeWhile Char.isDigit
      | 'E' :: '-' :: ds => ds.takeWhile Char.isDigit
      | 'E' :: '+' :: ds => ds.takeWhile Char.isDigit
      | 'E' :: ds => ds.takeWhile Char.isDigit
      | _ => []
    let expNeg : Bool :=
      match cs2 with
      | 'e' :: '-' :: _ => true
      | 'E' :: '-' :: _ => true
      | _ => false
    let e := digitsToNat expDigits
    if expNeg then
      .num (mkRat snum (10 ^ (fracDigits.length + e)))
    else
      .num (mkRat (snum * (10 ^ e : Nat)) (10 ^ fracDigits.length))

/-- JS `parseFloat` on an arbitrary value: the argument is coerced with
`ToString` and then parsed.  For a number the coercion round-trips, so the
value is returned unchanged (`parseFloat` never yields `null`/`undefined`,
which is why the `?? 0` fallbacks after it in the source are dead code). -/
def jsParseFloat : JVal → JNum
  | .jnum n => n
  | v => parseFloatStr (jsToString v)

/-- Thousands separators for the integer-part digit list of
`toLocaleString` (en-US grouping), written on the reversed digit list. -/
def groupRev : List Char → List Char
  | a :: b :: c :: d :: rest => a :: b :: c :: ',' :: groupRev (d :: rest)
  | l => l

/-- en-US `Number.prototype.toLocaleString`: grouped integer part and at
most three fraction digits. -/
def numToLocale : JNum → String
  | .nan => "NaN"
  | .num q =>
    let scaled := scaledAbs q 3
    let ip := scaled / 1000
    let fp := scaled % 1000
    let ipStr := String.mk (groupRev (Nat.repr ip).toList.reverse).reverse
    let fracPart := ((natDigitsFixed 3 fp).reverse.dropWhile (fun c => c = '0')).reverse
    (if Rat.blt q 0 then "-" else "") ++ ipStr ++
      (if fracPart.isEmpty then "" else "." ++ String.mk fracPart)

mutual

/-- JS `toLocaleString` dispatch for the values `item.Volume` can hold
(only reached through `?.`, hence never on a nullish receiver). -/
def jsToLocaleString : JVal → String
  | .jundefined => "undefined"
  | .jnull => "null"
  | .jbool b => cond b "true" "false"
  | .jnum n => numToLocale n
  | .jstr s => s
  | .jarr xs => String.intercalate "," (jsToLocaleArr xs)
  | .jobj _ => "[object Object]"

/-- Element conversion of `Array.prototype.toLocaleString`. -/
def jsToLocaleArr : List JVal → List String
  | [] => []
  | x :: rest =>
    (match x with
     | .jundefined => ""
     | .jnull => ""
     | y => jsToLocaleString y) :: jsToLocaleArr rest

end

/-- The text content of one rendered result card (`app.js` lines 101-131):
the interpolated values of the card's template literal. -/
structure Card where
  dateText : String
  rankText : String
  openText : String
  highText : String
  lowText : String
  closeText : String
  volumeText : String
  scoreType : String
  scoreText : String
deriving DecidableEq, Repr

/-- One chart contribution of an entry whose `Open` field is defined
(`app.js` lines 135-141): the label and the four parsed price values. -/
structure ChartRow where
  label : String
  openVal : JNum
  highVal : JNum
  lowVal : JNum
  closeVal : JNum
deriving DecidableEq, Repr

/-- Extract the number held by a `?? `-guarded `parseFloat` result: that
expression is always a number (`jsNullish` never replaces a `jnum`). -/
def numOf : JVal → JNum
  | .jnum n => n
  | _ => .nan

/-- The `const open = parseFloat(item.Open) ?? 0` line of the source, for
any of the four price fields: `parseFloat` never produces a nullish value,
so the `?? 0` arm is unreachable and an absent or unparsable field yields
`NaN`, not `0`. -/
def priceOf (item : JVal) (key : String) : JNum :=
  numOf (jsNullish (.jnum (jsParseFloat (getFieldD item key))) (.jnum (.num 0)))

/-- The card built for one entry, translating the loop body of
`displayResults` (lines 104-131).  Each property read throws only on a
nullish `item`; that case is handled by `renderItem`. -/
def itemCard (item : JVal) : Card :=
  let rank := jsNullish (getFieldD item "Rank") (.jstr "N/A")
  let date := jsNullish (getFieldD item "Date") (.jstr "N/A")
  let openN := priceOf item "Open"
  let highN := priceOf item "High"
  let lowN := priceOf item "Low"
  let closeN := priceOf item "Close"
  let volV := getFieldD item "Volume"
  let volume := jsNullish
    (if nonNullish volV then .jstr (jsToLocaleString volV) else .jundefined)
    (.jstr "N/A")
  let simV := getFieldD item "Similarity"
  let varV := getFieldD item "Variance"
  let scoreValue := jsNullish simV varV
  { dateText := jsToString date
    rankText := jsToString rank
    openText := jsToFixed 2 openN
    highText := jsToFixed 2 highN
    lowText := jsToFixed 2 lowN
    closeText := jsToFixed 2 closeN
    volumeText := jsToString volume
    scoreType := if isUndefined simV then "Variance" else "Similarity"
    scoreText := if isUndefined scoreValue then "N/A" else jsToFixed 4 (jsParseFloat scoreValue) }

/-- The `item.Open !== undefined` guard of the chart accumulation. -/
def hasOpenField (item : JVal) : Bool :=
  !(isUndefined (getFieldD item "Open"))

/-- The chart-series contribution of one entry (lines 136-140); pushed only
when `hasOpenField` holds. -/
def rowOf (item : JVal) : ChartRow :=
  let rank := jsNullish (getFieldD item "Rank") (.jstr "N/A")
  let date := jsNullish (getFieldD item "Date") (.jstr "N/A")
  { label := "Rank " ++ jsToString rank ++ " (" ++ jsToString date ++ ")"
    openVal := priceOf item "Open"
    highVal := priceOf item "High"
    lowVal := priceOf item "Low"
    closeVal := priceOf item "Close" }

/-- The single JS exception the renderer can raise: a `TypeError` from
reading a property of `null`/`undefined`. -/
inductive JsError where
  | typeError
deriving DecidableEq, Repr

/-- One loop iteration of `data.forEach`: the nine property reads of the
body throw precisely when `item` is nullish; otherwise the body is total
and yields the card plus the optional chart row. -/
def renderItem (item : JVal) : Except JsError (Card × Option ChartRow) :=
  if nonNullish item then
    .ok (itemCard item, if hasOpenField item then some (rowOf item) else none)
  else
    .error .typeError

/-- What the results container can hold: the error element of the `detail`
branch, the "No results found." paragraph, or a result card. -/
inductive Rendered where
  | errorMsg (text : String)
  | placeholder
  | card (c : Card)
deriving DecidableEq, Repr

/-- The chart built at the end of a successful render: the label list and
the four parallel datasets (the fixed colors/options carry no data). -/
structure ChartInst where
  labels : List String
  dsOpen : List JNum
  dsHigh : List JNum
  dsLow : List JNum
  dsClose : List JNum
deriving DecidableEq, Repr

/-- The renderer-owned mutable state: the results container's children,
the chart container's visibility, the `resultsChart` handle, and an
accounting field `leaked` counting chart instances that were overwritten
without `destroy()` (the code is supposed to keep it at zero; it is the
formal rendering of "no chart instance is ever leaked"). -/
structure UIState where
  results : List Rendered
  chartVisible : Bool
  resultsChart : Option ChartInst
  leaked : Nat
deriving DecidableEq, Repr

/-- The page's initial state: empty container, hidden chart, no chart
instance. -/
def initState : UIState :=
  { results := [], chartVisible := false, resultsChart := none, leaked := 0 }

/-- `clearResults` (lines 41-48): empty the container, hide the chart and
destroy-and-null any existing chart instance. -/
def clearResults (st : UIState) : UIState :=
  { st with results := [], chartVisible := false, resultsChart := none }

/-- `resultsChart = new Chart(...)`: assigning a new instance over a
non-null handle without destroying it first would leak the old one. -/
def newChart (st : UIState) (c : ChartInst) : UIState :=
  { st with
    leaked := st.leaked + (if st.resultsChart.isSome then 1 else 0)
    resultsChart := some c }

/-- Accumulated outcome of the `forEach` loop: the cards appended so far,
the chart rows accumulated so far, and whether an iteration threw
(aborting the loop and everything after it, with the cards already
appended left in the DOM). -/
structure LoopOut where
  cards : List Card
  rows : List ChartRow
  err : Bool
deriving Repr

/-- The `data.forEach(item => ...)` loop (lines 100-142). -/
def processItems : List JVal → LoopOut
  | [] => { cards := [], rows := [], err := false }
  | x :: rest =>
    match renderItem x with
    | .error _ => { cards := [], rows := [], err := true }
    | .ok (c, row) =>
      let r := processItems rest
      { cards := c :: r.cards, rows := row.toList ++ r.rows, err := r.err }

/-- The body of `displayResults` after the initial `clearResults()`
(lines 80-207), acting on the already-cleared state: the `data.detail`
check (which throws on a nullish payload and otherwise branches on
truthiness), the array/empty check, the card loop, and the conditional
chart construction. -/
def displayCore (st : UIState) (data : JVal) : UIState × Option JsError :=
  if nonNullish data then
    if truthy (getFieldD data "detail") then
      ({ st with results := [.errorMsg (jsToString (getFieldD data "detail"))] }, none)
    else
      match data with
      | .jarr xs =>
        if xs.length = 0 then
          ({ st with results := [.placeholder] }, none)
        else
          let r := processItems xs
          let st1 := { st with results := r.cards.map Rendered.card }
          if r.err then (st1, some .typeError)
          else
            let labels := r.rows.map (fun row => row.label)
            if 0 < labels.length then
              (newChart { st1 with chartVisible := true }
                { labels := labels
                  dsOpen := r.rows.map (fun row => row.openVal)
                  dsHigh := r.rows.map (fun row => row.highVal)
                  dsLow := r.rows.map (fun row => row.lowVal)
                  dsClose := r.rows.map (fun row => row.closeVal) }, none)
            else (st1, none)
      | _ => ({ st with results := [.placeholder] }, none)
  else
    (st, some .typeError)

/-- `displayResults(data)` (lines 77-208) as a state transformer: the
unconditional `clearResults()` followed by the render body; the second
component records a thrown `TypeError` (in which case the first component
is the partial DOM state left behind). -/
def displayResultsSt (st : UIState) (data : JVal) : UIState × Option JsError :=
  displayCore (clearResults st) data

/-- The operations the page performs on the renderer state: a render with
some payload, or a bare `clearResults()` (tab switch). -/
inductive RenderOp where
  | renderOp (payload : JVal)
  | clearOp

/-- Apply one operation to the UI state. -/
def applyOp (st : UIState) : RenderOp → UIState
  | .renderOp p => (displayResultsSt st p).1
  | .clearOp => clearResults st

/-- Apply a sequence of operations. -/
def applyOps (st : UIState) (ops : List RenderOp) : UIState :=
  ops.foldl applyOp st

/-- Number of live (undestroyed) chart instances: the held handle plus any
instance that was overwritten without being destroyed. -/
def liveCharts (st : UIState) : Nat :=
  st.leaked + (if st.resultsChart.isSome then 1 else 0)

/-! ### Helper lemmas -/

theorem natDigitsFixed_length (n : Nat) : ∀ m, (natDigitsFixed n m).length = n := by
  induction n with
  | zero => intro m; rfl
  | succ k ih =>
    intro m
    simp [natDigitsFixed, ih]

theorem natDigitsFixed_digit (n : Nat) :
    ∀ m c, c ∈ natDigitsFixed n m → c.isDigit = true := by
  induction n with
  | zero => intro m c hc; cases hc
  | succ k ih =>
    intro m c hc
    have hlt : m % 10 < 10 := Nat.mod_lt _ (by norm_num)
    have hdig : ∀ r < 10, (Nat.digitChar r).isDigit = true := by decide
    rcases List.mem_append.1 hc with h | h
    · exact ih _ c h
    · rw [List.mem_singleton.1 h]
      exact hdig _ hlt

theorem formatFixed_decomp (n : Nat) (q : ℚ) (hn : n ≠ 0) :
    ∃ pre ds, formatFixed n q = pre ++ "." ++ ds ∧ ds.length = n ∧
      ∀ c ∈ ds.data, c.isDigit = true := by
  refine ⟨(if Rat.blt q 0 then "-" else "") ++ Nat.repr (scaledAbs q n / 10 ^ n),
    ⟨natDigitsFixed n (scaledAbs q n % 10 ^ n)⟩, ?_, ?_, ?_⟩
  · simp only [formatFixed]
    rw [if_neg hn]
    simp [String.append_assoc]
  · show (natDigitsFixed n (scaledAbs q n % 10 ^ n)).length = n
    exact natDigitsFixed_length n _
  · intro c hc
    exact natDigitsFixed_digit n _ c hc

theorem processItems_ok (xs : List JVal) (h : ∀ x ∈ xs, nonNullish x = true) :
    processItems xs =
      { cards := xs.map itemCard
        rows := (xs.filter (fun x => hasOpenField x)).map rowOf
        err := false } := by
  induction xs with
  | nil => rfl
  | cons x rest ih =>
    have hx : nonNullish x = true := h x (List.mem_cons_self x rest)
    have hr := ih (fun y hy => h y (List.mem_cons_of_mem x hy))
    unfold processItems renderItem
    rw [if_pos hx, hr]
    cases hOpen : hasOpenField x <;>
      simp [List.filter_cons, hOpen]

theorem clearResults_eq (st : UIState) :
    clearResults st =
      { results := [], chartVisible := false, resultsChart := none,
        leaked := st.leaked } := rfl

theorem displayCore_leaked (st : UIState) (h : st.resultsChart = none) (data : JVal) :
    (displayCore st data).1.leaked = st.leaked := by
  unfold displayCore
  cases data <;> simp [newChart, h] <;> split_ifs <;> simp [newChart, h]

theorem displayResultsSt_leaked (st : UIState) (data : JVal) :
    (displayResultsSt st data).1.leaked = st.leaked := by
  unfold displayResultsSt
  rw [displayCore_leaked (clearResults st) rfl data]
  rfl

theorem displayResultsSt_arr (st : UIState) (xs : List JVal) (hne : xs ≠ [])
    (h : ∀ x ∈ xs, nonNullish x = true) :
    displayResultsSt st (.jarr xs) =
      (if ((xs.filter (fun x => hasOpenField x)).map rowOf) = [] then
        { results := xs.map (fun x => Rendered.card (itemCard x)),
          chartVisible := false, resultsChart := none, leaked := st.leaked }
       else
        { results := xs.map (fun x => Rendered.card (itemCard x)),
          chartVisible := true,
          resultsChart := some
            { labels := ((xs.filter (fun x => hasOpenField x)).map rowOf).map
                (fun r => r.label)
              dsOpen := ((xs.filter (fun x => hasOpenField x)).map rowOf).map
                (fun r => r.openVal)
              dsHigh := ((xs.filter (fun x => hasOpenField x)).map rowOf).map
                (fun r => r.highVal)
              dsLow := ((xs.filter (fun x => hasOpenField x)).map rowOf).map
                (fun r => r.lowVal)
              dsClose := ((xs.filter (fun x => hasOpenField x)).map rowOf).map
                (fun r => r.closeVal) },
          leaked := st.leaked }, none) := by
  have hlen : ¬ xs.length = 0 := by
    rw [List.length_eq_zero]; exact hne
  have h1 : nonNullish (JVal.jarr xs) = true := rfl
  have h2 : truthy (getFieldD (JVal.jarr xs) "detail") = false := rfl
  unfold displayResultsSt displayCore
  rw [clearResults_eq]
  simp only [h1, h2, Bool.false_eq_true, if_false, if_true, reduceCtorEq, ite_true, ite_false]
  rw [if_neg hlen, processItems_ok xs h]
  by_cases hrows : ((xs.filter (fun x => hasOpenField x)).map rowOf) = []
  · rw [if_pos hrows]
    simp only [hrows]
    simp
  · rw [if_neg hrows]
    have hpos : 0 < (xs.filter (fun x => hasOpenField x)).length := by
      rw [List.length_pos]
      intro h0
      exact hrows (by rw [h0]; rfl)
    simp only [newChart]
    simp [hpos]

/-! ### Claim theorems -/

/-- Claim C1 (code bug): the spec says an absent or unparsable price field
defaults to `0`, displayed as "0.00", and the source's `?? 0` shows the
same intent — but `parseFloat` never returns a nullish value, so the
fallback is dead code.  Evaluating the renderer at a record with `Open`
(and the other price fields) absent but `Variance` present shows all four
price metrics render as "NaN", not "0.00": the card is produced and is
excluded from the chart, but the displayed default diverges from the
specified one. -/
theorem c1_price_default_code_bug :
    displayResultsSt initState
        (.jarr [.jobj [("Variance", .jnum (.num (mkRat 3 2)))]]) =
      ({ results := [Rendered.card
          { dateText := "N/A", rankText := "N/A",
            openText := "NaN", highText := "NaN",
            lowText := "NaN", closeText := "NaN",
            volumeText := "N/A", scoreType := "Variance",
            scoreText := "1.5000" }],
         chartVisible := false, resultsChart := none, leaked := 0 }, none)
    ∧ "NaN" ≠ "0.00" := by
  exact ⟨rfl, by decide⟩

/-- Claim C2, counterexample: a payload whose `detail` field is present
but holds the empty string is not routed to the error branch — the source
tests `if (data.detail)`, i.e. truthiness, not presence — so the render
produces the no-results placeholder and no error element at all. -/
theorem c2_detail_presence_counterexample :
    (displayResultsSt initState (.jobj [("detail", .jstr "")])).1.results =
      [Rendered.placeholder]
    ∧ ∀ t, Rendered.errorMsg t ∉
        (displayResultsSt initState (.jobj [("detail", .jstr "")])).1.results := by
  refine ⟨rfl, ?_⟩
  intro t ht
  rw [show (displayResultsSt initState (.jobj [("detail", .jstr "")])).1.results =
      [Rendered.placeholder] from rfl] at ht
  simp at ht

/-- Claim C2 as amended: for every payload whose `detail` field holds a
truthy value — in particular any non-empty string — `displayResults`
renders exactly one error element containing that text verbatim, produces
zero result cards, leaves the chart hidden, builds no chart instance, and
stops; this branch takes precedence over the array-shape check. -/
theorem c2_truthy_detail_error_branch (st : UIState) (data : JVal) (s : String)
    (hd : getFieldD data "detail" = .jstr s) (hne : s ≠ "") :
    displayResultsSt st data =
      ({ results := [Rendered.errorMsg s], chartVisible := false,
         resultsChart := none, leaked := st.leaked }, none) := by
  have hnn : nonNullish data = true := by
    cases data <;> simp_all [getFieldD, nonNullish]
  have ht : truthy (getFieldD data "detail") = true := by
    rw [hd]
    simp [truthy, hne]
  unfold displayResultsSt displayCore
  rw [clearResults_eq, if_pos hnn, if_pos ht, hd]
  rfl

/-- Claim C2 witness: rendering `{detail: "Not found"}` yields exactly the
single error element with the verbatim text. -/
theorem c2_truthy_detail_witness :
    displayResultsSt initState (.jobj [("detail", .jstr "Not found")]) =
      ({ results := [Rendered.errorMsg "Not found"], chartVisible := false,
         resultsChart := none, leaked := 0 }, none) :=
  c2_truthy_detail_error_branch initState (.jobj [("detail", .jstr "Not found")])
    "Not found" rfl (by decide)

/-- Claim C3, counterexample: `displayResults(null)` throws — `data.detail`
is a property read on `null`, a `TypeError` — so the renderer is not
exception-free on every degenerate payload as claimed. -/
theorem c3_null_payload_throws :
    (displayResultsSt initState .jnull).2 = some JsError.typeError := rfl

/-- Claim C3 as amended: for every payload that is neither `null` nor
`undefined` and, when it is an array, contains no `null`/`undefined`
elements, `displayResults` never throws; malformed or missing fields
inside entries degrade to display text instead of raising. -/
theorem c3_nonnull_never_throws (st : UIState) (data : JVal)
    (h1 : nonNullish data = true)
    (h2 : ∀ xs, data = .jarr xs → ∀ x ∈ xs, nonNullish x = true) :
    (displayResultsSt st data).2 = none := by
  unfold displayResultsSt displayCore
  rw [clearResults_eq, if_pos h1]
  cases data with
  | jarr xs =>
    have hxs := h2 xs rfl
    have ht : truthy (getFieldD (JVal.jarr xs) "detail") = false := rfl
    simp only [ht, Bool.false_eq_true, if_false, ite_false, processItems_ok xs hxs]
    split_ifs <;> rfl
  | jobj fs => split_ifs <;> rfl
  | jstr s => split_ifs <;> rfl
  | jnum n => split_ifs <;> rfl
  | jbool b => split_ifs <;> rfl
  | jundefined => exact absurd h1 (by simp [nonNullish])
  | jnull => exact absurd h1 (by simp [nonNullish])

/-- Claim C3 witness: a non-array primitive payload renders without
throwing. -/
theorem c3_nonnull_never_throws_witness :
    (displayResultsSt initState (.jstr "hello")).2 = none :=
  c3_nonnull_never_throws initState (.jstr "hello") rfl
    (fun _ h => JVal.noConfusion h)

/-- Claim C4: in every rendered card the score label is "Similarity" with
the `Similarity` field's value whenever that field holds a number —
including numeric zero, which is not treated as absent —, else the label
is "Variance" with the `Variance` value when that holds a number, else the
"N/A" sentinel is shown; a present numeric score is rendered by
`formatFixed 4`, i.e. with exactly four digits after the decimal point. -/
theorem c4_score_selection (x : JVal) :
    (∀ q : ℚ, getFieldD x "Similarity" = .jnum (.num q) →
      (itemCard x).scoreType = "Similarity" ∧
      (itemCard x).scoreText = formatFixed 4 q ∧
      ∃ pre ds, (itemCard x).scoreText = pre ++ "." ++ ds ∧ ds.length = 4 ∧
        ∀ c ∈ ds.data, c.isDigit = true)
    ∧ (getFieldD x "Similarity" = .jundefined →
      (∀ q : ℚ, getFieldD x "Variance" = .jnum (.num q) →
        (itemCard x).scoreType = "Variance" ∧
        (itemCard x).scoreText = formatFixed 4 q ∧
        ∃ pre ds, (itemCard x).scoreText = pre ++ "." ++ ds ∧ ds.length = 4 ∧
          ∀ c ∈ ds.data, c.isDigit = true)
      ∧ (getFieldD x "Variance" = .jundefined → (itemCard x).scoreText = "N/A")) := by
  refine ⟨?_, fun hsim => ⟨?_, fun hvar => ?_⟩⟩
  · intro q hq
    have h1 : (itemCard x).scoreType = "Similarity" := by
      simp [itemCard, hq, isUndefined]
    have h2 : (itemCard x).scoreText = formatFixed 4 q := by
      simp [itemCard, hq, jsNullish, isUndefined, jsParseFloat, jsToFixed]
    refine ⟨h1, h2, ?_⟩
    rw [h2]
    exact formatFixed_decomp 4 q (by norm_num)
  · intro q hq
    have h1 : (itemCard x).scoreType = "Variance" := by
      simp [itemCard, hsim, isUndefined]
    have h2 : (itemCard x).scoreText = formatFixed 4 q := by
      simp [itemCard, hsim, hq, jsNullish, isUndefined, jsParseFloat, jsToFixed]
    refine ⟨h1, h2, ?_⟩
    rw [h2]
    exact formatFixed_decomp 4 q (by norm_num)
  · simp [itemCard, hsim, hvar, jsNullish, isUndefined]

/-- Claim C4 witness: a record with `Similarity: 0` renders the score
"0.0000" labelled "Similarity" — numeric zero is not treated as absent. -/
theorem c4_score_selection_witness :
    (itemCard (.jobj [("Similarity", .jnum (.num (mkRat 0 1)))])).scoreType = "Similarity" ∧
    (itemCard (.jobj [("Similarity", .jnum (.num (mkRat 0 1)))])).scoreText = "0.0000" := by
  have h := (c4_score_selection (.jobj [("Similarity", .jnum (.num (mkRat 0 1)))])).1
    (mkRat 0 1) rfl
  exact ⟨h.1, by rw [h.2.1]; rfl⟩

/-- Claim C10: when both `Similarity` and `Variance` hold numbers — outside
the spec's mutual-exclusion assumption — the renderer prioritizes
`Similarity`: the label is "Similarity" and the formatted score is the
`Similarity` value, with `Variance` ignored (the conclusion does not
depend on the `Variance` value). -/
theorem c10_similarity_priority (x : JVal) (a b : ℚ)
    (hs : getFieldD x "Similarity" = .jnum (.num a))
    (_hv : getFieldD x "Variance" = .jnum (.num b)) :
    (itemCard x).scoreType = "Similarity" ∧
    (itemCard x).scoreText = formatFixed 4 a := by
  constructor
  · simp [itemCard, hs, isUndefined]
  · simp [itemCard, hs, jsNullish, isUndefined, jsParseFloat, jsToFixed]

/-- Claim C10 witness: with `Similarity: 1/4` and `Variance: 9` present
together the card shows "Similarity" and "0.2500". -/
theorem c10_similarity_priority_witness :
    (itemCard (.jobj [("Similarity", .jnum (.num (mkRat 1 4))),
        ("Variance", .jnum (.num (mkRat 9 1)))])).scoreType = "Similarity" ∧
    (itemCard (.jobj [("Similarity", .jnum (.num (mkRat 1 4))),
        ("Variance", .jnum (.num (mkRat 9 1)))])).scoreText = "0.2500" := by
  have h := c10_similarity_priority (.jobj [("Similarity", .jnum (.num (mkRat 1 4))),
    ("Variance", .jnum (.num (mkRat 9 1)))]) (mkRat 1 4) (mkRat 9 1) rfl rfl
  exact ⟨h.1, by rw [h.2]; rfl⟩

/-- Claim C5: after rendering a non-empty result array (of non-nullish
entries), the chart area is visible iff at least one entry has a defined
`Open` field; the chart exists exactly when visible, its label sequence
and all four datasets are the image, in input order, of exactly the
entries with a defined `Open` (hence have length equal to their count);
entries lacking `Open` are excluded from the chart but still rendered as
cards. -/
theorem c5_chart_series (st : UIState) (xs : List JVal) (hne : xs ≠ [])
    (h : ∀ x ∈ xs, nonNullish x = true) :
    ((displayResultsSt st (.jarr xs)).1.chartVisible = true ↔
      ∃ x ∈ xs, hasOpenField x = true)
    ∧ ((displayResultsSt st (.jarr xs)).1.chartVisible = false →
      (displayResultsSt st (.jarr xs)).1.resultsChart = none)
    ∧ (∀ c, (displayResultsSt st (.jarr xs)).1.resultsChart = some c →
      c.labels = (xs.filter (fun x => hasOpenField x)).map (fun x => (rowOf x).label)
      ∧ c.dsOpen = (xs.filter (fun x => hasOpenField x)).map (fun x => (rowOf x).openVal)
      ∧ c.dsHigh = (xs.filter (fun x => hasOpenField x)).map (fun x => (rowOf x).highVal)
      ∧ c.dsLow = (xs.filter (fun x => hasOpenField x)).map (fun x => (rowOf x).lowVal)
      ∧ c.dsClose = (xs.filter (fun x => hasOpenField x)).map (fun x => (rowOf x).closeVal)
      ∧ c.labels.length = xs.countP (fun x => hasOpenField x)
      ∧ c.dsOpen.length = xs.countP (fun x => hasOpenField x))
    ∧ (displayResultsSt st (.jarr xs)).1.results =
        xs.map (fun x => Rendered.card (itemCard x)) := by
  rw [displayResultsSt_arr st xs hne h]
  have hiff : ((xs.filter (fun x => hasOpenField x)).map rowOf = []) ↔
      ¬ ∃ x ∈ xs, hasOpenField x = true := by
    rw [List.map_eq_nil_iff, List.filter_eq_nil_iff]
    simp
  by_cases hrows : ((xs.filter (fun x => hasOpenField x)).map rowOf) = []
  · rw [if_pos hrows]
    refine ⟨?_, fun _ => rfl, ?_, rfl⟩
    · simp only [hiff] at hrows
      simpa using hrows
    · intro c hc
      exact Option.noConfusion hc
  · rw [if_neg hrows]
    refine ⟨?_, ?_, ?_, rfl⟩
    · simp only [hiff, not_not] at hrows
      simpa using hrows
    · intro hfalse
      exact absurd hfalse (by simp)
    · intro c hc
      simp only [Option.some.injEq] at hc
      subst hc
      refine ⟨by simp, by simp, by simp, by simp, by simp, ?_, ?_⟩ <;>
        simp [List.countP_eq_length_filter]

/-- Claim C5 witness: a two-entry payload with one `Open`-bearing entry
shows the chart with a single label while both entries get cards. -/
theorem c5_chart_series_witness :
    (displayResultsSt initState (.jarr [.jobj [("Open", .jnum (.num (mkRat 5 1)))],
      .jobj [("Variance", .jnum (.num (mkRat 2 1)))]])).1.chartVisible = true := by
  have h := c5_chart_series initState
    [.jobj [("Open", .jnum (.num (mkRat 5 1)))],
     .jobj [("Variance", .jnum (.num (mkRat 2 1)))]]
    (List.cons_ne_nil _ _) (by decide)
  exact h.1.mpr ⟨.jobj [("Open", .jnum (.num (mkRat 5 1)))],
    List.mem_cons_self _ _, rfl⟩

/-- Claim C6: rendering a result array of length n ≥ 1 (of non-nullish
entries) appends exactly n result cards, one per entry, in input order. -/
theorem c6_card_count (st : UIState) (xs : List JVal) (hlen : 1 ≤ xs.length)
    (h : ∀ x ∈ xs, nonNullish x = true) :
    (displayResultsSt st (.jarr xs)).1.results =
      xs.map (fun x => Rendered.card (itemCard x))
    ∧ (displayResultsSt st (.jarr xs)).1.results.length = xs.length := by
  have hne : xs ≠ [] := by
    intro h0
    rw [h0] at hlen
    exact absurd hlen (by decide)
  rw [displayResultsSt_arr st xs hne h]
  by_cases hrows : ((xs.filter (fun x => hasOpenField x)).map rowOf) = [] <;>
    simp [hrows]

/-- Claim C6 witness: a singleton payload renders exactly one card. -/
theorem c6_card_count_witness :
    (displayResultsSt initState
      (.jarr [.jobj [("Date", .jstr "2024-01-02")]])).1.results.length = 1 :=
  (c6_card_count initState [.jobj [("Date", .jstr "2024-01-02")]]
    (by decide) (by decide)).2

/-- Claim C9: for every non-nullish payload that carries no `detail` field
and is either not an array or an empty array, `displayResults` renders
exactly one "no results" placeholder, zero cards, leaves the chart hidden
with no chart instance, and stops without error. -/
theorem c9_no_results_placeholder (st : UIState) (data : JVal)
    (hnn : nonNullish data = true)
    (hnod : getFieldD data "detail" = .jundefined)
    (hsh : isArr data = false ∨ data = .jarr []) :
    displayResultsSt st data =
      ({ results := [Rendered.placeholder], chartVisible := false,
         resultsChart := none, leaked := st.leaked }, none) := by
  have ht : truthy (getFieldD data "detail") = false := by
    rw [hnod]; rfl
  unfold displayResultsSt displayCore
  rw [clearResults_eq, if_pos hnn]
  simp only [ht, Bool.false_eq_true, if_false, ite_false]
  rcases hsh with hna | hemp
  · cases data <;> simp_all [isArr]
  · subst hemp
    rfl

/-- Claim C9 witness: a plain object payload without `detail` renders the
placeholder. -/
theorem c9_no_results_placeholder_witness :
    displayResultsSt initState (.jobj [("foo", .jnum (.num (mkRat 1 1)))]) =
      ({ results := [Rendered.placeholder], chartVisible := false,
         resultsChart := none, leaked := 0 }, none) :=
  c9_no_results_placeholder initState (.jobj [("foo", .jnum (.num (mkRat 1 1)))])
    rfl rfl (Or.inl rfl)

/-- Claim C7: rendering is idempotent per call — for every payload and
every starting state, rendering the same payload a second time yields
exactly the same final DOM/chart state (and error outcome) as the single
render, and a render never leaks a chart instance (the leak count is
unchanged), because every render unconditionally clears the previous
state first. -/
theorem c7_render_idempotent (st : UIState) (x : JVal) :
    displayResultsSt (displayResultsSt st x).1 x = displayResultsSt st x
    ∧ (displayResultsSt st x).1.leaked = st.leaked := by
  refine ⟨?_, displayResultsSt_leaked st x⟩
  show displayCore (clearResults (displayResultsSt st x).1) x =
    displayCore (clearResults st) x
  rw [clearResults_eq, clearResults_eq, displayResultsSt_leaked st x]

/-- Claim C8: at most one chart instance is live at any time — starting
from a leak-free state, after any sequence of render and clear operations
no overwritten-but-undestroyed chart instance exists (every previously
existing instance was disposed before a new one was constructed) and the
renderer holds at most one live chart handle. -/
theorem c8_single_chart_instance (ops : List RenderOp) (st : UIState)
    (h : st.leaked = 0) :
    (applyOps st ops).leaked = 0 ∧ liveCharts (applyOps st ops) ≤ 1 := by
  have hleak : ∀ (ops : List RenderOp) (st : UIState),
      (applyOps st ops).leaked = st.leaked := by
    intro ops
    induction ops with
    | nil => intro st; rfl
    | cons op rest ih =>
      intro st
      have hstep : applyOps st (op :: rest) = applyOps (applyOp st op) rest := rfl
      rw [hstep, ih]
      cases op with
      | renderOp p => exact displayResultsSt_leaked st p
      | clearOp => rfl
  have h0 : (applyOps st ops).leaked = 0 := by rw [hleak, h]
  refine ⟨h0, ?_⟩
  unfold liveCharts
  rw [h0]
  split_ifs <;> simp

/-- Claim C8 witness: two successive chart-producing renders from the
initial state leave no leaked instance and at most one live chart. -/
theorem c8_single_chart_instance_witness :
    (applyOps initState
      [RenderOp.renderOp (.jarr [.jobj [("Open", .jnum (.num (mkRat 5 1)))]]),
       RenderOp.renderOp (.jarr [.jobj [("Open", .jnum (.num (mkRat 5 1)))]])]).leaked = 0
    ∧ liveCharts (applyOps initState
      [RenderOp.renderOp (.jarr [.jobj [("Open", .jnum (.num (mkRat 5 1)))]]),
       RenderOp.renderOp (.jarr [.jobj [("Open", .jnum (.num (mkRat 5 1)))]])]) ≤ 1 :=
  c8_single_chart_instance
    [RenderOp.renderOp (.jarr [.jobj [("Open", .jnum (.num (mkRat 5 1)))]]),
     RenderOp.renderOp (.jarr [.jobj [("Open", .jnum (.num (mkRat 5 1)))]])]
    initState rfl

end StockApp
